import Mathlib

/-!
Shallow embedding of the cryptobot sources (`src/coss.rs` and
`src/gridbot.rs`).  `f32` arithmetic is idealised as exact rational
arithmetic (`ℚ`); Rust panics (`unwrap`, `expect`, out-of-bounds indexing)
are modelled as an explicit `panic` outcome; each network round trip is
modelled by an environment value giving the decoded outcome of that call.
-/

namespace Cryptobot

/-- Rust `e as u32` applied to a finite float value: truncation toward zero,
saturating at `0` from below.  On exact rationals this agrees with
`q.floor.toNat`: for `q ≥ 0` truncation equals the floor, and for `q < 0`
both sides are `0`. -/
def rustAsU32 (q : ℚ) : ℕ := (Int.floor q).toNat

/-! ### coss.rs: wire data model -/

/-- `Asset` (coss.rs:34): a balance record returned by the exchange.  The
quantity fields are decimal strings, exactly as on the wire. -/
structure Asset where
  currency_code : Option String
  address : Option String
  total : String
  available : String
  in_order : String
  memo : Option String
  memoLabel : Option String
deriving DecidableEq, Repr

/-- Rust `Asset::default()` (from `derive(Default)`): `Option` fields
default to `None` and `String` fields to the empty string `""`. -/
def Asset.default : Asset :=
  { currency_code := none, address := none, total := "", available := "",
    in_order := "", memo := none, memoLabel := none }

/-- `Price` (coss.rs:45): one market-price entry; `price` is a decimal
string. -/
structure Price where
  symbol : String
  price : String
  updated_time : ℕ
deriving DecidableEq, Repr

/-- `OrderStatus` (coss.rs:53). -/
inductive OrderStatus where
  | «open»
  | canceled
  | filled
  | partial_fill
  | cancelling
deriving DecidableEq, Repr

/-- `OrderResponse` (coss.rs:63): decoded order details. -/
structure OrderResponse where
  order_id : String
  account_id : String
  order_symbol : String
  order_side : String
  status : OrderStatus
  createTime : ℕ
  type : String
  order_price : String
  order_size : String
  executed : String
  stop_price : String
  avg : String
deriving DecidableEq, Repr

/-- `OrderAddResponse` (coss.rs:80): the exchange's answer to `add_order`. -/
structure OrderAddResponse where
  hex_id : String
  order_id : String
  account_id : String
  order_symbol : String
  order_side : String
  status : String
  createTime : ℕ
  type : String
  timeMatching : ℕ
  order_price : String
  order_size : String
  executed : String
  stop_price : String
  avg : String
  total : String
deriving DecidableEq, Repr

/-- `CancelOrderResponse` (coss.rs:99). -/
structure CancelOrderResponse where
  order_id : String
  order_symbol : String
deriving DecidableEq, Repr

/-- `OrderSide` (coss.rs:110). -/
inductive OrderSide where
  | BUY
  | SELL
deriving DecidableEq, Repr

/-- `OrderType` (coss.rs:115). -/
inductive OrderType where
  | MARKET
  | LIMIT
deriving DecidableEq, Repr

/-! ### coss.rs: the client methods

Each method performs one `api_request` round trip followed by a
`serde_json` decode.  The HTTP transport and the JSON decoder are outside
the embedding; their combined outcome for one call is a value of
`ApiOutcome`: the transport failed (`reqwest::Error` from `send`/`text`),
the body did not decode into the expected type (`serde_json` error, which
is also how a non-2xx error body surfaces, since the code never checks the
HTTP status), or a decoded value. -/

/-- Outcome of one `api_request` round trip plus decode, as consumed by a
client method. -/
inductive ApiOutcome (α : Type) where
  | transportFail
  | decodeFail
  | ok (a : α)
deriving DecidableEq, Repr

/-- What a caller of a client method observes: a normal return value, a
returned `Err` of the Rust `Result`, or a Rust panic
(`unwrap`/`expect`/out-of-bounds indexing). -/
inductive ClientResult (α : Type) where
  | ok (a : α)
  | err
  | panic
deriving DecidableEq, Repr

/-- Models `str::parse::<f32>` on the plain decimal strings this program
meets: an optional leading minus sign, then digits with at most one decimal
point and at least one digit overall.  Anything else — in particular the
empty string — fails.  The value is read exactly, as a rational. -/
def digitsVal (acc : ℕ) : List Char → Option ℕ
  | [] => some acc
  | c :: cs => if c.isDigit then digitsVal (acc * 10 + (c.toNat - 48)) cs else none

/-- See `digitsVal`; parses a signed decimal string exactly. -/
def parseDecimal (s : String) : Option ℚ :=
  let signed : Bool × List Char :=
    match s.toList with
    | '-' :: rest => (true, rest)
    | l => (false, l)
  let intPart := signed.2.takeWhile (fun c => c ≠ '.')
  let rest := signed.2.dropWhile (fun c => c ≠ '.')
  let mag : Option ℚ :=
    match rest with
    | [] => if intPart.isEmpty then none else (digitsVal 0 intPart).map (fun n => (n : ℚ))
    | _ :: frac =>
      if intPart.isEmpty ∧ frac.isEmpty then none
      else
        match digitsVal 0 intPart, digitsVal 0 frac with
        | some n, some f => some ((n : ℚ) + (f : ℚ) / (10 : ℚ) ^ frac.length)
        | _, _ => none
  mag.map (fun v => if signed.1 then -v else v)

/-- `Client::get_balances` (coss.rs:195): `api_request(...).unwrap()`
panics on transport failure; `serde_json::from_str(...)?` returns the
decode error to the caller. -/
def get_balances (r : ApiOutcome (List Asset)) : ClientResult (List Asset) :=
  match r with
  | .transportFail => .panic
  | .decodeFail => .err
  | .ok a => .ok a

/-- The closure `|b| match &b.currency_code { Some(a) => a == coin, None
=> false }` passed to `find` at coss.rs:213. -/
def coinPred (coin : String) (b : Asset) : Bool :=
  match b.currency_code with
  | some a => a == coin
  | none => false

/-- `Client::get_balance` (coss.rs:211): `self.get_balances().unwrap()`
panics on any failure of `get_balances` (transport panic propagates, and a
returned decode error is unwrapped into a panic); then filters by currency
code, falling back to `Asset::default()` when the coin is absent. -/
def get_balance (r : ApiOutcome (List Asset)) (coin : String) : ClientResult Asset :=
  match get_balances r with
  | .panic => .panic
  | .err => .panic
  | .ok balances =>
    .ok (match balances.find? (coinPred coin) with
         | some a => a
         | none => Asset.default)

/-- `Client::get_available_balance` (coss.rs:224): matches on
`get_balance`; on `Ok` it parses the `available` string, defaulting to `0`
on a parse error; the `Err(_) => 0.0` arm is unreachable because
`get_balance` only ever returns `Ok` (its failures are panics). A panic in
`get_balance` propagates. -/
def get_available_balance (r : ApiOutcome (List Asset)) (coin : String) : ClientResult ℚ :=
  match get_balance r coin with
  | .ok asset =>
    .ok (match parseDecimal asset.available with
         | some balance => balance
         | none => 0)
  | .err => .ok 0
  | .panic => .panic

/-- `Client::get_market_price` (coss.rs:234): panics on transport failure
(`unwrap`), returns the decode error on a malformed body, then evaluates
`price[0]` — a panic when the decoded list is empty — and
`.parse::<f32>().unwrap()` — a panic when the price string does not
parse. -/
def get_market_price (pair : String) (r : ApiOutcome (List Price)) : ClientResult ℚ :=
  match r with
  | .transportFail => .panic
  | .decodeFail => .err
  | .ok prices =>
    match prices with
    | [] => .panic
    | p :: _ =>
      match parseDecimal p.price with
      | none => .panic
      | some q => .ok q

/-- `Client::get_orders` (coss.rs:251): `api_request(...).unwrap()` panics
on transport failure; the decode error is returned. -/
def get_orders (pair : String) (r : ApiOutcome (List OrderResponse)) :
    ClientResult (List OrderResponse) :=
  match r with
  | .transportFail => .panic
  | .decodeFail => .err
  | .ok a => .ok a

/-- `Client::get_order_details` (coss.rs:279): `api_request(...).unwrap()`
panics on transport failure; the decode error is returned. -/
def get_order_details (order_id : String) (r : ApiOutcome OrderResponse) :
    ClientResult OrderResponse :=
  match r with
  | .transportFail => .panic
  | .decodeFail => .err
  | .ok a => .ok a

/-- `Client::add_order` (coss.rs:309): `api_request(...).unwrap()` panics
on transport failure; the decode error is returned. -/
def add_order (pair : String) (type : OrderType) (side : OrderSide)
    (size : ℚ) (price : ℚ) (r : ApiOutcome OrderAddResponse) :
    ClientResult OrderAddResponse :=
  match r with
  | .transportFail => .panic
  | .decodeFail => .err
  | .ok a => .ok a

/-- `Client::cancel_order` (coss.rs:357): `api_request(...).unwrap()`
panics on transport failure; the decode error is returned. -/
def cancel_order (pair : String) (id : String) (r : ApiOutcome CancelOrderResponse) :
    ClientResult CancelOrderResponse :=
  match r with
  | .transportFail => .panic
  | .decodeFail => .err
  | .ok a => .ok a

/-! ### gridbot.rs: configuration and grid computation -/

/-- Rust `str::split` with a one-character separator, over the character
list: splitting at every occurrence of `sep`, keeping empty fields, and
yielding `[""]` for the empty string — exactly the iterator
`pair.split("_")` collects at gridbot.rs:48. -/
def splitChars (sep : Char) : List Char → List (List Char)
  | [] => [[]]
  | c :: cs =>
    match splitChars sep cs with
    | [] => [[]]
    | r :: rs => if c = sep then [] :: r :: rs else (c :: r) :: rs

/-- `pair.split("_").collect()` (gridbot.rs:48) as a list of strings. -/
def pairCoins (pair : String) : List String :=
  (splitChars '_' pair.toList).map (fun l => ⟨l⟩)

/-- `Configuration` (gridbot.rs:24); the `f32` fields are exact rationals
and `number_of_grids` is the `u32`. -/
structure Configuration where
  pair : String
  upper_limit : ℚ
  lower_limit : ℚ
  order_amount : ℚ
  number_of_grids : ℕ
deriving DecidableEq, Repr

/-- gridbot.rs:80: `order_step = (upper_limit - lower_limit) /
number_of_grids as f32`. -/
def order_step (cfg : Configuration) : ℚ :=
  (cfg.upper_limit - cfg.lower_limit) / (cfg.number_of_grids : ℚ)

/-- gridbot.rs:82: `((upper_limit - current_price) / order_step) as u32`. -/
def num_sell_orders (cfg : Configuration) (current_price : ℚ) : ℕ :=
  rustAsU32 ((cfg.upper_limit - current_price) / order_step cfg)

/-- gridbot.rs:83: `((current_price - lower_limit) / order_step) as u32`. -/
def num_buy_orders (cfg : Configuration) (current_price : ℚ) : ℕ :=
  rustAsU32 ((current_price - cfg.lower_limit) / order_step cfg)

/-- The loop at gridbot.rs:87-91: for `i in 1..=num_sell_orders`, push
`current_price + i as f32 * order_step`.  `List.range n` counts `i-1`
from `0`, so the pushed level is `current_price + (i+1) * order_step`. -/
def sell_orders (cfg : Configuration) (current_price : ℚ) : List ℚ :=
  (List.range (num_sell_orders cfg current_price)).map
    (fun i => current_price + ((i + 1 : ℕ) : ℚ) * order_step cfg)

/-- The accumulator of the same loop: `required_sell_coins +=
order_amount` once per generated sell level, starting from `0.0`. -/
def required_sell_coins (cfg : Configuration) (current_price : ℚ) : ℚ :=
  (sell_orders cfg current_price).foldl (fun acc _ => acc + cfg.order_amount) 0

/-- The loop at gridbot.rs:95-99: for `i in 1..=num_buy_orders`, push
`current_price - i as f32 * order_step`. -/
def buy_orders (cfg : Configuration) (current_price : ℚ) : List ℚ :=
  (List.range (num_buy_orders cfg current_price)).map
    (fun i => current_price - ((i + 1 : ℕ) : ℚ) * order_step cfg)

/-- The accumulator of the same loop: `required_buy_coins += order_amount *
order` once per generated buy level, starting from `0.0`. -/
def required_buy_coins (cfg : Configuration) (current_price : ℚ) : ℚ :=
  (buy_orders cfg current_price).foldl
    (fun acc order => acc + cfg.order_amount * order) 0

/-! ### gridbot.rs: initialize -/

/-- One `add_order` call made by `initialize` (gridbot.rs:120-149): the
arguments passed to `Client::add_order`. -/
structure PlacedOrder where
  pair : String
  type : OrderType
  side : OrderSide
  size : ℚ
  price : ℚ
deriving DecidableEq, Repr

/-- The `Result` value `Gridbot::initialize` returns, or the panic it dies
with.  The `err` messages keep the fixed text of the `format!` strings;
interpolated numeric values are elided. -/
inductive InitResult where
  | ok
  | err (msg : String)
  | panic
deriving DecidableEq, Repr

/-- What one call to `Gridbot::initialize` did: the result, the orders it
submitted through `add_order` in submission order, and the `order_ids`
vector afterwards (a fresh `Gridbot` starts with `order_ids = vec![]`). -/
structure InitOutcome where
  result : InitResult
  placed : List PlacedOrder
  order_ids : List String
deriving DecidableEq, Repr

/-- The exchange as `Gridbot::initialize` sees it through the client:
`balance coin` is the value `get_available_balance` returns for `coin`
(that call never returns `Err`; a panic inside it is outside this model),
`price` is the `Result` of `get_market_price` for the configured pair
(`none` models the `Err` that line 69's `.unwrap()` would panic on), and
`orderId n` is the order id the exchange assigns to the n-th `add_order`
call (order placement is modelled as succeeding; a failed placement panics
via `expect` and no claim depends on it). -/
structure Env where
  balance : String → ℚ
  price : Option ℚ
  orderId : ℕ → String

/-- The buy orders then the sell orders `initialize` submits
(gridbot.rs:120-149), as `add_order` argument tuples: every order is a
LIMIT order of size `order_amount`; buys are placed first. -/
def placed_orders (cfg : Configuration) (current_price : ℚ) : List PlacedOrder :=
  (buy_orders cfg current_price).map
    (fun order_price => ⟨cfg.pair, .LIMIT, .BUY, cfg.order_amount, order_price⟩)
  ++ (sell_orders cfg current_price).map
    (fun order_price => ⟨cfg.pair, .LIMIT, .SELL, cfg.order_amount, order_price⟩)

/-- `Gridbot::initialize` (gridbot.rs:47-152).  `coins` is
`pairCoins pair`; `balances` maps `get_available_balance` over it.  The
two `balances[i]` indexing sites panic (`InitResult.panic`) when the index
is out of bounds, exactly as Rust `Vec` indexing does; `coins[i]` inside
the error messages is only evaluated on the corresponding error path and
`coins[0]` always exists (`split` never yields an empty vector).  The
branch order follows the source; the price fetch is pure in this model, so
evaluating it before mapping `balances` is unobservable. -/
def initializeBot (cfg : Configuration) (env : Env) : InitOutcome :=
  if cfg.upper_limit < 0 ∨ cfg.lower_limit < 0 then
    ⟨.err "Limits cannot be negative values", [], []⟩
  else if cfg.upper_limit < cfg.lower_limit then
    ⟨.err "Upper limit must be higher than lower limit", [], []⟩
  else
    match env.price with
    | none => ⟨.panic, [], []⟩
    | some current_price =>
      if current_price < cfg.lower_limit ∨ current_price > cfg.upper_limit then
        ⟨.err "The current price for this pair should fit within the lower/upper limits", [], []⟩
      else
        match ((pairCoins cfg.pair).map env.balance)[0]? with
        | none => ⟨.panic, [], []⟩
        | some b0 =>
          if b0 < required_sell_coins cfg current_price then
            ⟨.err "You need at least the required first coin to start this bot", [], []⟩
          else
            match ((pairCoins cfg.pair).map env.balance)[1]? with
            | none => ⟨.panic, [], []⟩
            | some b1 =>
              if b1 < required_buy_coins cfg current_price then
                ⟨.err "You need at least the required second coin to start this bot", [], []⟩
              else
                ⟨.ok, placed_orders cfg current_price,
                 (List.range (placed_orders cfg current_price).length).map env.orderId⟩

/-- `Gridbot::initialize` rejected: it returned `Err`, made no `add_order` call, and
left the tracked-order set empty. -/
def rejected (o : InitOutcome) : Prop :=
  (∃ msg, o.result = .err msg) ∧ o.placed = [] ∧ o.order_ids = []

/-! ### gridbot.rs: process -/

/-- The match arms of `Gridbot::process` (gridbot.rs:163-174) that push the
id onto `to_remove`: `filled` and `canceled`; every other status falls to
the do-nothing arm. -/
def isTerminal (s : OrderStatus) : Bool :=
  match s with
  | .filled => true
  | .canceled => true
  | _ => false

/-- The `to_remove` vector `Gridbot::process` builds (gridbot.rs:155-175):
the tracked ids whose fetched status is `filled` or `canceled`, in order.
`status id` is the status `get_order_details id` reports (that call is
modelled as succeeding; a failure panics via `expect`). -/
def to_remove (status : String → OrderStatus) (order_ids : List String) : List String :=
  order_ids.filter (fun id => isTerminal (status id))

/-- What one `Gridbot::process` poll cycle did. -/
structure ProcessOutcome where
  order_ids : List String
  detailsFetched : List String
  ordersPlaced : List PlacedOrder
  ordersCancelled : List String
deriving DecidableEq, Repr

/-- `Gridbot::process` (gridbot.rs:154-181): the loop fetches
`get_order_details` once per tracked id in order, builds `to_remove`,
then `retain`s the ids not contained in it.  The body contains no
`add_order` or `cancel_order` call, so those traces are empty. -/
def process (status : String → OrderStatus) (order_ids : List String) : ProcessOutcome :=
  { order_ids := order_ids.filter (fun x => !((to_remove status order_ids).contains x))
  , detailsFetched := order_ids
  , ordersPlaced := []
  , ordersCancelled := [] }

/-! ### Concrete fixtures used by witnesses and counterexamples -/

/-- The configuration of spec §8's worked example: pair ETH_USDT, limits
100..200, order amount 1, 10 grid divisions (step 10). -/
def cfgEx : Configuration := ⟨"ETH_USDT", 200, 100, 1, 10⟩

/-- The same configuration with a pair string that has no `_` separator. -/
def cfgNoSep : Configuration := ⟨"ETHUSDT", 200, 100, 1, 10⟩

/-- A configuration with a negative upper limit. -/
def cfgNegUpper : Configuration := ⟨"ETH_USDT", -1, 100, 1, 10⟩

/-- An exchange with ample balances, market price 150 and sequential order
ids. -/
def envEx : Env := ⟨fun _ => 1000, some 150, fun n => toString n⟩

/-- A decoded ETH balance entry. -/
def assetETH : Asset := ⟨some "ETH", none, "12.5", "12.5", "0", none, none⟩

/-- A decoded BTC balance entry. -/
def assetBTC : Asset := ⟨some "BTC", none, "3", "2", "1", none, none⟩

/-- An exchange where order "a" is filled and every other order is open. -/
def statusEx : String → OrderStatus := fun id => if id = "a" then .filled else .«open»

/-! ### Helper lemmas -/

theorem foldl_add_const {α : Type} (a c : ℚ) (l : List α) :
    l.foldl (fun acc _ => acc + a) c = c + l.length * a := by
  induction l generalizing c with
  | nil => simp
  | cons x xs ih =>
    simp only [List.foldl_cons, List.length_cons, ih]
    push_cast
    ring

theorem foldl_add_mul (a c : ℚ) (l : List ℚ) :
    l.foldl (fun acc o => acc + a * o) c = c + a * l.sum := by
  induction l generalizing c with
  | nil => simp
  | cons x xs ih =>
    simp only [List.foldl_cons, List.sum_cons, ih]
    ring

/-- The sell-loop accumulator sums `order_amount` once per generated level. -/
theorem required_sell_coins_eq (cfg : Configuration) (p : ℚ) :
    required_sell_coins cfg p = cfg.order_amount * (num_sell_orders cfg p : ℚ) := by
  unfold required_sell_coins
  rw [foldl_add_const]
  have : (sell_orders cfg p).length = num_sell_orders cfg p := by
    simp [sell_orders]
  rw [this, zero_add, mul_comm]

/-- The buy-loop accumulator sums `order_amount * level` over the levels. -/
theorem required_buy_coins_eq (cfg : Configuration) (p : ℚ) :
    required_buy_coins cfg p = cfg.order_amount * (buy_orders cfg p).sum := by
  unfold required_buy_coins
  rw [foldl_add_mul, zero_add]

theorem order_step_pos (cfg : Configuration) (hg : 0 < cfg.number_of_grids)
    (h : cfg.lower_limit < cfg.upper_limit) : 0 < order_step cfg := by
  unfold order_step
  apply div_pos (by linarith)
  exact_mod_cast hg

theorem cast_rustAsU32 (q : ℚ) (hq : 0 ≤ q) : ((rustAsU32 q : ℕ) : ℤ) = Int.floor q := by
  unfold rustAsU32
  exact Int.toNat_of_nonneg (Int.floor_nonneg.mpr hq)

theorem rustAsU32_mul_le (q s : ℚ) (hs : 0 < s) (hq : 0 ≤ q) :
    ((rustAsU32 (q / s) : ℕ) : ℚ) * s ≤ q := by
  have hnn : (0 : ℚ) ≤ q / s := div_nonneg hq hs.le
  have h1 : ((rustAsU32 (q / s) : ℕ) : ℚ) = ((Int.floor (q / s) : ℤ) : ℚ) := by
    exact_mod_cast congrArg (fun z : ℤ => (z : ℚ)) (cast_rustAsU32 (q / s) hnn)
  rw [h1]
  calc ((Int.floor (q / s) : ℤ) : ℚ) * s
      ≤ (q / s) * s := mul_le_mul_of_nonneg_right (Int.floor_le _) hs.le
    _ = q := div_mul_cancel₀ q hs.ne'

/-! ### Claim theorems -/

/-- C1 (amended): for a valid configuration (positive grid count,
nonnegative lower limit) and a current price strictly between the limits,
`initialize` computes `order_step = (upper_limit - lower_limit) /
number_of_grids`, generates exactly `floor((upper_limit - current_price) /
order_step)` sell levels at `current_price + i * order_step` and exactly
`floor((current_price - lower_limit) / order_step)` buy levels at
`current_price - i * order_step` (i = 1..count), and every generated sell
price lies in `(lower_limit, upper_limit]` while every generated buy price
lies in `[lower_limit, upper_limit)` — a level can land exactly on a limit
when the distance from the price to that limit is an exact multiple of
`order_step`, so the prices are within the closed interval
`[lower_limit, upper_limit]` but not always strictly inside it. -/
theorem grid_level_generation (cfg : Configuration) (p : ℚ)
    (hg : 0 < cfg.number_of_grids) (hl : 0 ≤ cfg.lower_limit)
    (hlp : cfg.lower_limit < p) (hpu : p < cfg.upper_limit) :
    order_step cfg = (cfg.upper_limit - cfg.lower_limit) / (cfg.number_of_grids : ℚ)
    ∧ ((sell_orders cfg p).length : ℤ) = Int.floor ((cfg.upper_limit - p) / order_step cfg)
    ∧ (∀ i (h : i < (sell_orders cfg p).length),
        (sell_orders cfg p).get ⟨i, h⟩ = p + ((i + 1 : ℕ) : ℚ) * order_step cfg)
    ∧ ((buy_orders cfg p).length : ℤ) = Int.floor ((p - cfg.lower_limit) / order_step cfg)
    ∧ (∀ i (h : i < (buy_orders cfg p).length),
        (buy_orders cfg p).get ⟨i, h⟩ = p - ((i + 1 : ℕ) : ℚ) * order_step cfg)
    ∧ (∀ x ∈ sell_orders cfg p, cfg.lower_limit < x ∧ x ≤ cfg.upper_limit)
    ∧ (∀ x ∈ buy_orders cfg p, cfg.lower_limit ≤ x ∧ x < cfg.upper_limit) := by
  have hs : 0 < order_step cfg := order_step_pos cfg hg (lt_trans hlp hpu)
  have hqs : (0 : ℚ) ≤ cfg.upper_limit - p := by linarith
  have hqb : (0 : ℚ) ≤ p - cfg.lower_limit := by linarith
  refine ⟨rfl, ?_, ?_, ?_, ?_, ?_, ?_⟩
  · have hlen : (sell_orders cfg p).length = num_sell_orders cfg p := by
      simp [sell_orders]
    rw [hlen]
    exact cast_rustAsU32 _ (div_nonneg hqs hs.le)
  · intro i h
    simp [sell_orders, List.get_eq_getElem]
  · have hlen : (buy_orders cfg p).length = num_buy_orders cfg p := by
      simp [buy_orders]
    rw [hlen]
    exact cast_rustAsU32 _ (div_nonneg hqb hs.le)
  · intro i h
    simp [buy_orders, List.get_eq_getElem]
  · intro x hx
    obtain ⟨i, hi, rfl⟩ := List.mem_map.mp hx
    rw [List.mem_range] at hi
    constructor
    · have hpos : (0 : ℚ) < ((i + 1 : ℕ) : ℚ) * order_step cfg := by positivity
      linarith
    · have h1 : ((i + 1 : ℕ) : ℚ) ≤ ((num_sell_orders cfg p : ℕ) : ℚ) := by
        exact_mod_cast Nat.succ_le_of_lt hi
      have h2 : ((num_sell_orders cfg p : ℕ) : ℚ) * order_step cfg ≤ cfg.upper_limit - p := by
        unfold num_sell_orders
        exact rustAsU32_mul_le _ _ hs hqs
      have h3 : ((i + 1 : ℕ) : ℚ) * order_step cfg ≤
          ((num_sell_orders cfg p : ℕ) : ℚ) * order_step cfg :=
        mul_le_mul_of_nonneg_right h1 hs.le
      linarith
  · intro x hx
    obtain ⟨i, hi, rfl⟩ := List.mem_map.mp hx
    rw [List.mem_range] at hi
    constructor
    · have h1 : ((i + 1 : ℕ) : ℚ) ≤ ((num_buy_orders cfg p : ℕ) : ℚ) := by
        exact_mod_cast Nat.succ_le_of_lt hi
      have h2 : ((num_buy_orders cfg p : ℕ) : ℚ) * order_step cfg ≤ p - cfg.lower_limit := by
        unfold num_buy_orders
        exact rustAsU32_mul_le _ _ hs hqb
      have h3 : ((i + 1 : ℕ) : ℚ) * order_step cfg ≤
          ((num_buy_orders cfg p : ℕ) : ℚ) * order_step cfg :=
        mul_le_mul_of_nonneg_right h1 hs.le
      linarith
    · have hpos : (0 : ℚ) < ((i + 1 : ℕ) : ℚ) * order_step cfg := by positivity
      linarith

/-- C1 witness: the amended theorem applied to the §8 example
(limits 100..200, 10 grids, price 150). -/
theorem grid_level_generation_witness :
    ((sell_orders cfgEx 150).length : ℤ)
      = Int.floor ((cfgEx.upper_limit - 150) / order_step cfgEx) :=
  (grid_level_generation cfgEx 150 (by norm_num [cfgEx]) (by norm_num [cfgEx])
    (by norm_num [cfgEx]) (by norm_num [cfgEx])).2.1

/-- C1 counterexample to the claim as stated: with limits 100..200, 10
grids and price 150 — strictly between the limits — the fifth buy level is
exactly 100 = lower_limit, which is not strictly inside
(lower_limit, upper_limit). -/
theorem grid_level_generation_cex :
    (100 : ℚ) ∈ buy_orders cfgEx 150 ∧ ¬ (cfgEx.lower_limit < (100 : ℚ)) := by
  constructor
  · have h : buy_orders cfgEx 150 = [140, 130, 120, 110, 100] := by
      norm_num [buy_orders, num_buy_orders, rustAsU32, order_step, cfgEx]
      rw [show List.range (Int.toNat 5) = [0, 1, 2, 3, 4] from rfl]
      norm_num
    rw [h]
    norm_num
  · norm_num [cfgEx]

/-- C2: initialization rejects — returning `Err`, with zero `add_order`
calls and the tracked-order set left empty — whenever the upper limit is
negative, the lower limit is negative, the upper limit is below the lower
limit, the fetched price is below the lower limit or above the upper
limit, or either per-coin available balance is below its required amount;
no order is placed before all these checks pass. -/
theorem initialize_rejection_cases (cfg : Configuration) (env : Env) :
    (cfg.upper_limit < 0 → rejected (initializeBot cfg env))
    ∧ (cfg.lower_limit < 0 → rejected (initializeBot cfg env))
    ∧ (cfg.upper_limit < cfg.lower_limit → rejected (initializeBot cfg env))
    ∧ (∀ p, env.price = some p → p < cfg.lower_limit → rejected (initializeBot cfg env))
    ∧ (∀ p, env.price = some p → p > cfg.upper_limit → rejected (initializeBot cfg env))
    ∧ (∀ p b0, env.price = some p →
        ((pairCoins cfg.pair).map env.balance)[0]? = some b0 →
        b0 < required_sell_coins cfg p → rejected (initializeBot cfg env))
    ∧ (∀ p b1, env.price = some p →
        ((pairCoins cfg.pair).map env.balance)[1]? = some b1 →
        b1 < required_buy_coins cfg p → rejected (initializeBot cfg env)) := by
  refine ⟨?_, ?_, ?_, ?_, ?_, ?_, ?_⟩
  · intro h
    unfold initializeBot
    rw [if_pos (Or.inl h)]
    exact ⟨⟨_, rfl⟩, rfl, rfl⟩
  · intro h
    unfold initializeBot
    rw [if_pos (Or.inr h)]
    exact ⟨⟨_, rfl⟩, rfl, rfl⟩
  · intro h
    unfold initializeBot
    by_cases h1 : cfg.upper_limit < 0 ∨ cfg.lower_limit < 0
    · rw [if_pos h1]
      exact ⟨⟨_, rfl⟩, rfl, rfl⟩
    · rw [if_neg h1, if_pos h]
      exact ⟨⟨_, rfl⟩, rfl, rfl⟩
  · intro p hp hpl
    unfold initializeBot
    by_cases h1 : cfg.upper_limit < 0 ∨ cfg.lower_limit < 0
    · rw [if_pos h1]
      exact ⟨⟨_, rfl⟩, rfl, rfl⟩
    · rw [if_neg h1]
      by_cases h2 : cfg.upper_limit < cfg.lower_limit
      · rw [if_pos h2]
        exact ⟨⟨_, rfl⟩, rfl, rfl⟩
      · rw [if_neg h2, hp]
        dsimp only
        rw [if_pos (Or.inl hpl)]
        exact ⟨⟨_, rfl⟩, rfl, rfl⟩
  · intro p hp hpu
    unfold initializeBot
    by_cases h1 : cfg.upper_limit < 0 ∨ cfg.lower_limit < 0
    · rw [if_pos h1]
      exact ⟨⟨_, rfl⟩, rfl, rfl⟩
    · rw [if_neg h1]
      by_cases h2 : cfg.upper_limit < cfg.lower_limit
      · rw [if_pos h2]
        exact ⟨⟨_, rfl⟩, rfl, rfl⟩
      · rw [if_neg h2, hp]
        dsimp only
        rw [if_pos (Or.inr hpu)]
        exact ⟨⟨_, rfl⟩, rfl, rfl⟩
  · intro p b0 hp h0 hlt
    unfold initializeBot
    by_cases h1 : cfg.upper_limit < 0 ∨ cfg.lower_limit < 0
    · rw [if_pos h1]
      exact ⟨⟨_, rfl⟩, rfl, rfl⟩
    · rw [if_neg h1]
      by_cases h2 : cfg.upper_limit < cfg.lower_limit
      · rw [if_pos h2]
        exact ⟨⟨_, rfl⟩, rfl, rfl⟩
      · rw [if_neg h2, hp]
        dsimp only
        by_cases h3 : p < cfg.lower_limit ∨ p > cfg.upper_limit
        · rw [if_pos h3]
          exact ⟨⟨_, rfl⟩, rfl, rfl⟩
        · rw [if_neg h3, h0]
          dsimp only
          rw [if_pos hlt]
          exact ⟨⟨_, rfl⟩, rfl, rfl⟩
  · intro p b1 hp hb1i hlt
    have hlen : 1 < ((pairCoins cfg.pair).map env.balance).length :=
      (List.getElem?_eq_some.mp hb1i).1
    obtain ⟨b0, h0⟩ : ∃ b0, ((pairCoins cfg.pair).map env.balance)[0]? = some b0 := by
      cases e : ((pairCoins cfg.pair).map env.balance)[0]? with
      | none =>
        rw [List.getElem?_eq_none_iff] at e
        omega
      | some v => exact ⟨v, rfl⟩
    unfold initializeBot
    by_cases h1 : cfg.upper_limit < 0 ∨ cfg.lower_limit < 0
    · rw [if_pos h1]
      exact ⟨⟨_, rfl⟩, rfl, rfl⟩
    · rw [if_neg h1]
      by_cases h2 : cfg.upper_limit < cfg.lower_limit
      · rw [if_pos h2]
        exact ⟨⟨_, rfl⟩, rfl, rfl⟩
      · rw [if_neg h2, hp]
        dsimp only
        by_cases h3 : p < cfg.lower_limit ∨ p > cfg.upper_limit
        · rw [if_pos h3]
          exact ⟨⟨_, rfl⟩, rfl, rfl⟩
        · rw [if_neg h3, h0]
          dsimp only
          by_cases h4 : b0 < required_sell_coins cfg p
          · rw [if_pos h4]
            exact ⟨⟨_, rfl⟩, rfl, rfl⟩
          · rw [if_neg h4, hb1i]
            dsimp only
            rw [if_pos hlt]
            exact ⟨⟨_, rfl⟩, rfl, rfl⟩

/-- C2 witness: the negative-upper-limit case rejects on a concrete
configuration. -/
theorem initialize_rejection_cases_witness :
    rejected (initializeBot cfgNegUpper envEx) :=
  (initialize_rejection_cases cfgNegUpper envEx).1 (by norm_num [cfgNegUpper])

/-- C3: during initialization the required sell-side balance is
`order_amount * num_sell_orders` (base currency) and the required buy-side
balance is `order_amount * sum(buy price levels)` (quote currency), and —
once the limit and price-range checks pass and both coins of the pair
resolve to a balance — `initialize` rejects without placing any order
exactly when the first coin's balance is below the required sell amount or
the second coin's balance is below the required buy amount. -/
theorem initialize_balance_requirements (cfg : Configuration) (env : Env) (p b0 b1 : ℚ)
    (hp : env.price = some p)
    (h0 : ((pairCoins cfg.pair).map env.balance)[0]? = some b0)
    (h1b : ((pairCoins cfg.pair).map env.balance)[1]? = some b1)
    (hu : 0 ≤ cfg.upper_limit) (hl : 0 ≤ cfg.lower_limit)
    (hul : cfg.lower_limit ≤ cfg.upper_limit)
    (hlp : cfg.lower_limit ≤ p) (hpu : p ≤ cfg.upper_limit) :
    required_sell_coins cfg p = cfg.order_amount * (num_sell_orders cfg p : ℚ)
    ∧ required_buy_coins cfg p = cfg.order_amount * (buy_orders cfg p).sum
    ∧ (rejected (initializeBot cfg env) ↔
        b0 < required_sell_coins cfg p ∨ b1 < required_buy_coins cfg p) := by
  refine ⟨required_sell_coins_eq cfg p, required_buy_coins_eq cfg p, ?_⟩
  unfold initializeBot
  rw [if_neg (by push_neg; exact ⟨hu, hl⟩), if_neg (not_lt.mpr hul), hp]
  dsimp only
  rw [if_neg (by push_neg; exact ⟨hlp, hpu⟩), h0]
  dsimp only
  by_cases hb0 : b0 < required_sell_coins cfg p
  · rw [if_pos hb0]
    exact iff_of_true ⟨⟨_, rfl⟩, rfl, rfl⟩ (Or.inl hb0)
  · rw [if_neg hb0, h1b]
    dsimp only
    by_cases hb1 : b1 < required_buy_coins cfg p
    · rw [if_pos hb1]
      exact iff_of_true ⟨⟨_, rfl⟩, rfl, rfl⟩ (Or.inr hb1)
    · rw [if_neg hb1]
      refine iff_of_false ?_ ?_
      · rintro ⟨⟨msg, hmsg⟩, -, -⟩
        exact InitResult.noConfusion hmsg
      · rintro (h | h)
        · exact hb0 h
        · exact hb1 h

/-- C3 witness: on the §8 example with 1000 of each coin available, the
requirements evaluate and the rejection condition is an equivalence. -/
theorem initialize_balance_requirements_witness :
    required_sell_coins cfgEx 150 = cfgEx.order_amount * (num_sell_orders cfgEx 150 : ℚ)
    ∧ required_buy_coins cfgEx 150 = cfgEx.order_amount * (buy_orders cfgEx 150).sum
    ∧ (rejected (initializeBot cfgEx envEx) ↔
        (1000 : ℚ) < required_sell_coins cfgEx 150
        ∨ (1000 : ℚ) < required_buy_coins cfgEx 150) :=
  initialize_balance_requirements cfgEx envEx 150 1000 1000 rfl rfl rfl
    (by norm_num [cfgEx]) (by norm_num [cfgEx]) (by norm_num [cfgEx])
    (by norm_num [cfgEx]) (by norm_num [cfgEx])

/-- C10: when the configured pair has no `_` separator (fewer than two
components), `initialize` with an in-range price and a sufficient
first-coin balance reaches the out-of-bounds `balances[1]` index and
panics instead of returning a validation error: the balance-sufficiency
checks are only total when the pair splits into at least two components. -/
theorem initialize_missing_separator_panics (cfg : Configuration) (env : Env) (p b0 : ℚ)
    (hsplit : (pairCoins cfg.pair).length < 2)
    (hp : env.price = some p)
    (hu : 0 ≤ cfg.upper_limit) (hl : 0 ≤ cfg.lower_limit)
    (hul : cfg.lower_limit ≤ cfg.upper_limit)
    (hlp : cfg.lower_limit ≤ p) (hpu : p ≤ cfg.upper_limit)
    (h0 : ((pairCoins cfg.pair).map env.balance)[0]? = some b0)
    (hb : required_sell_coins cfg p ≤ b0) :
    initializeBot cfg env = ⟨.panic, [], []⟩ := by
  unfold initializeBot
  rw [if_neg (by push_neg; exact ⟨hu, hl⟩), if_neg (not_lt.mpr hul), hp]
  dsimp only
  rw [if_neg (by push_neg; exact ⟨hlp, hpu⟩), h0]
  dsimp only
  rw [if_neg (not_lt.mpr hb)]
  have h1n : ((pairCoins cfg.pair).map env.balance)[1]? = none := by
    apply List.getElem?_eq_none
    simp only [List.length_map]
    omega
  rw [h1n]

/-- C10 witness: the pair "ETHUSDT" (no separator), price 150 inside the
limits and an ample balance drive `initialize` into the indexing panic. -/
theorem initialize_missing_separator_panics_witness :
    initializeBot cfgNoSep envEx = ⟨.panic, [], []⟩ :=
  initialize_missing_separator_panics cfgNoSep envEx 150 1000 (by decide) rfl
    (by norm_num [cfgNoSep]) (by norm_num [cfgNoSep]) (by norm_num [cfgNoSep])
    (by norm_num [cfgNoSep]) (by norm_num [cfgNoSep]) rfl
    (by rw [required_sell_coins_eq]
        norm_num [num_sell_orders, rustAsU32, order_step, cfgNoSep])

/-- The retain step of `process` keeps exactly the ids whose reported
status is non-terminal, in their original order. -/
theorem process_order_ids_filter (status : String → OrderStatus) (ids : List String) :
    (process status ids).order_ids = ids.filter (fun id => !(isTerminal (status id))) := by
  simp only [process, to_remove]
  apply List.filter_congr
  intro x hx
  congr 1
  by_cases h : isTerminal (status x)
  · simp [h, List.mem_filter, hx]
  · simp [h, List.mem_filter]

/-- C4: one `process` call fetches the details of every tracked order id;
ids whose status is `filled` or `canceled` are removed from the tracked
set in that single poll cycle and are never polled again; ids with any
other status (`open`, `partial_fill`, `cancelling`) remain tracked, in
order; and `process` places no order and cancels no order. -/
theorem process_one_poll_cycle (status : String → OrderStatus) (ids : List String) :
    (process status ids).detailsFetched = ids
    ∧ (isTerminal .filled = true ∧ isTerminal .canceled = true
        ∧ isTerminal .«open» = false ∧ isTerminal .partial_fill = false
        ∧ isTerminal .cancelling = false)
    ∧ (process status ids).order_ids = ids.filter (fun id => !(isTerminal (status id)))
    ∧ (∀ id ∈ ids, isTerminal (status id) = true → id ∉ (process status ids).order_ids)
    ∧ (∀ id ∈ ids, isTerminal (status id) = false → id ∈ (process status ids).order_ids)
    ∧ (∀ id ∈ ids, isTerminal (status id) = true →
        id ∉ (process status ((process status ids).order_ids)).detailsFetched)
    ∧ (process status ids).ordersPlaced = [] ∧ (process status ids).ordersCancelled = [] := by
  have hfil := process_order_ids_filter status ids
  refine ⟨rfl, ⟨rfl, rfl, rfl, rfl, rfl⟩, hfil, ?_, ?_, ?_, rfl, rfl⟩
  · intro id hid ht hmem
    rw [hfil] at hmem
    have := (List.mem_filter.mp hmem).2
    rw [ht] at this
    exact Bool.false_ne_true (by simpa using this.symm)
  · intro id hid ht
    rw [hfil]
    exact List.mem_filter.mpr ⟨hid, by rw [ht]; rfl⟩
  · intro id hid ht hmem
    have hmem2 : id ∈ (process status ids).order_ids := hmem
    rw [hfil] at hmem2
    have := (List.mem_filter.mp hmem2).2
    rw [ht] at this
    exact Bool.false_ne_true (by simpa using this.symm)

/-- C4 witness: with order "a" filled and "b" open, the poll retires "a"
and keeps "b". -/
theorem process_one_poll_cycle_witness :
    (process statusEx ["a", "b"]).order_ids
      = ["a", "b"].filter (fun id => !(isTerminal (statusEx id))) :=
  (process_one_poll_cycle statusEx ["a", "b"]).2.2.1

/-- C5: when the exchange reports the same statuses again, running
`process` a second time leaves the tracked-order set unchanged — no id is
removed twice and no id is re-added (every id tracked after a poll was
tracked before it). -/
theorem process_idempotent (status : String → OrderStatus) (ids : List String) :
    (process status ((process status ids).order_ids)).order_ids
      = (process status ids).order_ids
    ∧ (∀ id, id ∈ (process status ids).order_ids → id ∈ ids) := by
  constructor
  · rw [process_order_ids_filter, process_order_ids_filter,
      List.filter_filter]
    apply List.filter_congr
    intro x _
    simp
  · intro id hmem
    rw [process_order_ids_filter] at hmem
    exact (List.mem_filter.mp hmem).1

/-- C6 (amended): on a malformed response body (a decode failure, which is
also how a non-2xx error body surfaces, since the HTTP status is never
checked) `get_balances`, `get_market_price`, `get_orders`,
`get_order_details`, `add_order` and `cancel_order` return the error to
the caller; but on transport failure every operation panics through
`.unwrap()` instead of returning an error, and `get_balance` and
`get_available_balance` turn even decode failures into panics by
unwrapping the `get_balances` result. -/
theorem api_client_failure_modes :
    (get_balances .decodeFail = .err ∧ get_balances .transportFail = .panic)
    ∧ (∀ pair, get_market_price pair .decodeFail = .err
        ∧ get_market_price pair .transportFail = .panic)
    ∧ (∀ pair, get_orders pair .decodeFail = .err
        ∧ get_orders pair .transportFail = .panic)
    ∧ (∀ oid, get_order_details oid .decodeFail = .err
        ∧ get_order_details oid .transportFail = .panic)
    ∧ (∀ pair type side size price,
        add_order pair type side size price .decodeFail = .err
        ∧ add_order pair type side size price .transportFail = .panic)
    ∧ (∀ pair id, cancel_order pair id .decodeFail = .err
        ∧ cancel_order pair id .transportFail = .panic)
    ∧ (∀ coin, get_balance .decodeFail coin = .panic
        ∧ get_balance .transportFail coin = .panic)
    ∧ (∀ coin, get_available_balance .decodeFail coin = .panic
        ∧ get_available_balance .transportFail coin = .panic) :=
  ⟨⟨rfl, rfl⟩, fun _ => ⟨rfl, rfl⟩, fun _ => ⟨rfl, rfl⟩, fun _ => ⟨rfl, rfl⟩,
    fun _ _ _ _ _ => ⟨rfl, rfl⟩, fun _ _ => ⟨rfl, rfl⟩, fun _ => ⟨rfl, rfl⟩,
    fun _ => ⟨rfl, rfl⟩⟩

/-- C6 counterexample to the claim as stated: on transport failure
`get_balances` panics — it does not return an error result to the
caller. -/
theorem api_client_failure_modes_cex :
    get_balances ApiOutcome.transportFail = ClientResult.panic
    ∧ ClientResult.panic ≠ (ClientResult.err : ClientResult (List Asset)) :=
  ⟨rfl, by simp⟩

/-- C7 (amended): for every decoded balance list, `get_available_balance`
returns the parsed `available` field of the Asset `get_balance` found
(`0` when that string fails to parse), and it never returns an `Err` to
its caller; but when the underlying lookup fails — transport or decode
failure — it panics (through `get_balance`) rather than returning `0`. -/
theorem get_available_balance_behaviour (assets : List Asset) (coin : String) (asset : Asset)
    (h : get_balance (.ok assets) coin = .ok asset) :
    get_available_balance (.ok assets) coin
      = .ok (match parseDecimal asset.available with
             | some balance => balance
             | none => 0)
    ∧ (∀ r : ApiOutcome (List Asset), get_available_balance r coin ≠ .err)
    ∧ get_available_balance .transportFail coin = .panic
    ∧ get_available_balance .decodeFail coin = .panic := by
  refine ⟨?_, ?_, rfl, rfl⟩
  · unfold get_available_balance
    rw [h]
  · intro r
    cases r <;> simp [get_available_balance, get_balance, get_balances]

/-- C7 witness: an ETH entry with available "12.5" is parsed and
returned. -/
theorem get_available_balance_behaviour_witness :
    get_available_balance (.ok [assetETH]) "ETH"
      = .ok (match parseDecimal assetETH.available with
             | some balance => balance
             | none => 0) :=
  (get_available_balance_behaviour [assetETH] "ETH" assetETH rfl).1

/-- C7 counterexample to the claim as stated: on transport failure
`get_available_balance` panics instead of returning the `0` sentinel. -/
theorem get_available_balance_cex :
    get_available_balance ApiOutcome.transportFail "ETH" = ClientResult.panic
    ∧ ClientResult.panic ≠ ClientResult.ok (0 : ℚ)
    ∧ ClientResult.panic ≠ (ClientResult.err : ClientResult ℚ) :=
  ⟨rfl, by simp, by simp⟩

/-- C8 (amended): for every currency code absent from the decoded balance
list, `get_balance` succeeds and returns `Asset::default()` — but its
quantity fields (`total`, `available`, `in_order`) are the empty string
`""`, not the string `"0"` (Rust's `derive(Default)` defaults `String` to
`""`). -/
theorem get_balance_missing_coin (assets : List Asset) (coin : String)
    (h : ∀ a ∈ assets, a.currency_code ≠ some coin) :
    get_balance (.ok assets) coin = .ok Asset.default
    ∧ Asset.default.total = "" ∧ Asset.default.available = ""
    ∧ Asset.default.in_order = "" := by
  refine ⟨?_, rfl, rfl, rfl⟩
  have hf : assets.find? (coinPred coin) = none := by
    apply List.find?_eq_none.mpr
    intro a ha
    unfold coinPred
    cases hc : a.currency_code with
    | none => simp
    | some c =>
      have hne : c ≠ coin := by
        intro heq
        exact h a ha (by rw [hc, heq])
      simp [hne]
  unfold get_balance get_balances
  dsimp only
  rw [hf]

/-- C8 witness: looking up "ETH" in a list holding only a BTC entry
returns the default Asset. -/
theorem get_balance_missing_coin_witness :
    get_balance (.ok [assetBTC]) "ETH" = .ok Asset.default :=
  (get_balance_missing_coin [assetBTC] "ETH" (by decide)).1

/-- C8 counterexample to the claim as stated: the fallback Asset's `total`
is `""`, not the string `"0"`. -/
theorem get_balance_missing_coin_cex :
    get_balance (ApiOutcome.ok []) "ETH" = ClientResult.ok Asset.default
    ∧ Asset.default.total ≠ "0" :=
  ⟨rfl, by decide⟩

/-- C9 (amended): `get_market_price` returns the parsed price of the first
element of the decoded price list, but when that list is empty it panics
on the `price[0]` index — it does not return an error to the caller. -/
theorem get_market_price_first (pair : String) (p : Price) (ps : List Price) (q : ℚ)
    (h : parseDecimal p.price = some q) :
    get_market_price pair (.ok (p :: ps)) = .ok q
    ∧ get_market_price pair (.ok []) = .panic := by
  constructor
  · unfold get_market_price
    dsimp only
    rw [h]
  · rfl

/-- C9 witness: a price list headed by an entry with price string "150"
yields 150. -/
theorem get_market_price_first_witness :
    get_market_price "ETH_USDT" (.ok [⟨"ETH_USDT", "150", 0⟩]) = .ok 150 :=
  (get_market_price_first "ETH_USDT" ⟨"ETH_USDT", "150", 0⟩ [] 150 rfl).1

/-- C9 counterexample to the claim as stated: on an empty price list
`get_market_price` panics rather than returning an error. -/
theorem get_market_price_first_cex :
    get_market_price "ETH_USDT" (ApiOutcome.ok []) = ClientResult.panic
    ∧ ClientResult.panic ≠ (ClientResult.err : ClientResult ℚ) :=
  ⟨rfl, by simp⟩

end Cryptobot
